import Mathlib

/-!
# VidQuizzer video-processing pipeline: shallow embedding and verification

This file embeds the parts of the VidQuizzer backend that the pipeline
claims are about:

* `Backend/services/transcription.service.js` — `pollTranscription` and
  `processTranscriptionResult`;
* `Backend/services/ai.service.js` — `generateQuestions` (parse/annotate step);
* `Backend/models/Video.js` — the mongoose `videoSchema` paths and the
  semantics of `Video.findByIdAndUpdate` under mongoose defaults
  (`strict: true`, so update keys that are not schema paths are dropped;
  `runValidators: false`, so enum validators are not applied on updates);
* `jobs/videoProcessor.js` — the Bull worker `videoQueue.process` and
  `addVideoJob` (Bull `attempts: 3`: a job whose processor throws is
  redelivered until it has been attempted 3 times in total).

Remote providers (AssemblyAI, Gemini), the file system and `Math.random`
are modelled as oracle inputs; wall-clock timing (the 5000 ms poll sleep,
`generatedAt: new Date()`) is recorded as constants but not simulated.
Millisecond timestamps are embedded as rationals so that the JS division
by 1000 is exact.
-/

namespace VidQuizzer

/-! ## Transcription service: `processTranscriptionResult`

Embedding of `transcription.service.js` lines 164–238.  The AssemblyAI
payload fields that the function reads are modelled with `Option` for
fields that may be absent (`undefined`).  JS truthiness coincides with
`Option.getD` here: the defaults `''` and `0` are exactly the falsy
values of the corresponding types, and an empty array is truthy in JS,
so `if (result.words)` behaves as `Option.isSome`. -/

structure RawWord where
  start : ℚ
  stop : ℚ
  text : String
  confidence : ℚ
deriving DecidableEq

structure RawUtterance where
  speaker : String
  start : ℚ
  stop : ℚ
  text : String
  confidence : ℚ
deriving DecidableEq

structure RawChapter where
  start : ℚ
  stop : ℚ
  headline : String
  gist : String
  summary : String
deriving DecidableEq

structure RawEntity where
  start : ℚ
  stop : ℚ
  text : String
  entity_type : String
deriving DecidableEq

structure RawSentiment where
  start : ℚ
  stop : ℚ
  text : String
  sentiment : String
  confidence : ℚ
deriving DecidableEq

structure RawTimestamp where
  start : ℚ
  stop : ℚ
deriving DecidableEq

structure RawHighlight where
  text : String
  count : ℚ
  rank : ℚ
  timestamps : List RawTimestamp
deriving DecidableEq

structure RawHighlightsResult where
  results : List RawHighlight
deriving DecidableEq

/-- The provider result object as read by `processTranscriptionResult`:
every field the function accesses, `Option` where it may be absent. -/
structure RawResult where
  text : Option String
  language_code : Option String
  confidence : Option ℚ
  words : Option (List RawWord)
  utterances : Option (List RawUtterance)
  chapters : Option (List RawChapter)
  entities : Option (List RawEntity)
  sentiment_analysis_results : Option (List RawSentiment)
  auto_highlights_result : Option RawHighlightsResult
deriving DecidableEq

structure TimedWord where
  start : ℚ
  stop : ℚ
  text : String
  confidence : ℚ
deriving DecidableEq

structure SpeakerTurn where
  speaker : String
  start : ℚ
  stop : ℚ
  text : String
  confidence : ℚ
deriving DecidableEq

structure ChapterOut where
  start : ℚ
  stop : ℚ
  headline : String
  gist : String
  summary : String
deriving DecidableEq

structure EntityOut where
  start : ℚ
  stop : ℚ
  text : String
  entityType : String
deriving DecidableEq

structure SentimentOut where
  start : ℚ
  stop : ℚ
  text : String
  sentiment : String
  confidence : ℚ
deriving DecidableEq

structure TimestampOut where
  start : ℚ
  stop : ℚ
deriving DecidableEq

structure HighlightOut where
  text : String
  count : ℚ
  rank : ℚ
  timestamps : List TimestampOut
deriving DecidableEq

/-- The normalized transcript shape returned by the transcription service
(the `processed` object of `processTranscriptionResult`). -/
structure ProcessedTranscript where
  text : String
  language : String
  confidence : ℚ
  timestamped : List TimedWord
  speakers : List SpeakerTurn
  chapters : List ChapterOut
  entities : List EntityOut
  sentiment : Option (List SentimentOut)
  highlights : List HighlightOut
deriving DecidableEq

/-- `processTranscriptionResult` (transcription.service.js 164–238),
written as the JS is: start from the default `processed` object, then
overwrite each field when the corresponding provider field is present.
Millisecond timestamps are divided by 1000. -/
def processTranscriptionResult (result : RawResult) : ProcessedTranscript :=
  let processed : ProcessedTranscript :=
    { text := result.text.getD ""
      language := result.language_code.getD "en"
      confidence := result.confidence.getD 0
      timestamped := []
      speakers := []
      chapters := []
      entities := []
      sentiment := none
      highlights := [] }
  let processed :=
    match result.words with
    | none => processed
    | some ws =>
        { processed with timestamped := ws.map fun w =>
            { start := w.start / 1000, stop := w.stop / 1000
              text := w.text, confidence := w.confidence } }
  let processed :=
    match result.utterances with
    | none => processed
    | some us =>
        { processed with speakers := us.map fun u =>
            { speaker := u.speaker, start := u.start / 1000
              stop := u.stop / 1000, text := u.text, confidence := u.confidence } }
  let processed :=
    match result.chapters with
    | none => processed
    | some cs =>
        { processed with chapters := cs.map fun c =>
            { start := c.start / 1000, stop := c.stop / 1000
              headline := c.headline, gist := c.gist, summary := c.summary } }
  let processed :=
    match result.entities with
    | none => processed
    | some es =>
        { processed with entities := es.map fun e =>
            { start := e.start / 1000, stop := e.stop / 1000
              text := e.text, entityType := e.entity_type } }
  let processed :=
    match result.sentiment_analysis_results with
    | none => processed
    | some ss =>
        { processed with sentiment := some (ss.map fun s =>
            { start := s.start / 1000, stop := s.stop / 1000
              text := s.text, sentiment := s.sentiment, confidence := s.confidence }) }
  let processed :=
    match result.auto_highlights_result with
    | none => processed
    | some h =>
        { processed with highlights := h.results.map fun hl =>
            { text := hl.text, count := hl.count, rank := hl.rank
              timestamps := hl.timestamps.map fun ts =>
                { start := ts.start / 1000, stop := ts.stop / 1000 } } }
  processed

/-! ## Transcription service: `pollTranscription`

Embedding of `transcription.service.js` lines 140–162.  The sequence of
provider status responses is an oracle `get : Nat → PollStatus` giving
the response to the i-th poll (0-based).  The JS loop runs while
`attempts < maxAttempts`, polls, returns the processed result on
`completed`, throws on `error`, and otherwise sleeps 5000 ms and
increments `attempts`; after the loop it throws `'Transcription timeout'`. -/

inductive PollStatus where
  | queued
  | processing
  | completed (result : RawResult)
  | errored (msg : String)
deriving DecidableEq

/-- A status that keeps the JS loop polling (neither `completed` nor `error`). -/
def PollStatus.isPending : PollStatus → Bool
  | .queued => true
  | .processing => true
  | _ => false

/-- The fixed sleep between polls, in milliseconds (`setTimeout(resolve, 5000)`). -/
def pollIntervalMs : Nat := 5000

/-- The default `maxAttempts` of `pollTranscription`. -/
def maxPollAttempts : Nat := 60

/-- The poll loop with `remaining = maxAttempts - attempts` iterations left,
about to issue poll number `i`. -/
def pollFrom (get : Nat → PollStatus) : Nat → Nat → Except String ProcessedTranscript
  | 0, _ => .error "Transcription timeout"
  | remaining + 1, i =>
      match get i with
      | .completed result => .ok (processTranscriptionResult result)
      | .errored msg => .error ("Transcription failed: " ++ msg)
      | _ => pollFrom get remaining (i + 1)

/-- Number of polls the loop issues (each iteration issues exactly one
`getTranscriptionResult` call before deciding). -/
def pollCountFrom (get : Nat → PollStatus) : Nat → Nat → Nat
  | 0, _ => 0
  | remaining + 1, i =>
      match get i with
      | .completed _ => 1
      | .errored _ => 1
      | _ => 1 + pollCountFrom get remaining (i + 1)

/-- `pollTranscription(transcriptId, maxAttempts = 60)` as a function of the
provider's response sequence. -/
def pollTranscription (get : Nat → PollStatus) : Except String ProcessedTranscript :=
  pollFrom get maxPollAttempts 0

/-- Total number of provider status requests made by `pollTranscription`. -/
def pollCount (get : Nat → PollStatus) : Nat :=
  pollCountFrom get maxPollAttempts 0

/-! ## AI service: `generateQuestions`

Embedding of `ai.service.js` lines 60–112, after the provider response
has been JSON-parsed into an array of question objects.  The function
annotates every parsed entry (`{...q, aiGenerated, aiModel, confidence}`)
and returns them all; `Math.random() * 0.3 + 0.7` is modelled as an
oracle `conf : Nat → ℚ` supplying the confidence of the i-th entry. -/

inductive QuestionType where
  | multiple_choice
  | short_answer
  | other (s : String)
deriving DecidableEq

structure QuestionOption where
  text : String
  isCorrect : Bool
deriving DecidableEq

/-- A parsed question object from the provider's JSON.  `question` is
`Option` because a malformed entry may lack the property entirely. -/
structure RawQuestion where
  question : Option String
  qtype : QuestionType
  difficulty : String
  options : List QuestionOption
  correctAnswer : Option String
  explanation : Option String
  timestamp : Option ℚ
  category : Option String
deriving DecidableEq

/-- A question after `generateQuestions` annotates it (the object spread
keeps every parsed field and adds `aiGenerated`, `aiModel`, `confidence`). -/
structure AnnotatedQuestion where
  question : Option String
  qtype : QuestionType
  difficulty : String
  options : List QuestionOption
  correctAnswer : Option String
  explanation : Option String
  timestamp : Option ℚ
  category : Option String
  aiGenerated : Bool
  aiModel : String
  confidence : ℚ
deriving DecidableEq

/-- The spec's minimal shape contract for one question: non-empty question
text, and a multiple-choice entry has at least 2 options with exactly one
correct flag.  (Stated from the spec to express "well-formed"; the source
has no such check.) -/
def wellFormedQuestion (q : RawQuestion) : Bool :=
  (q.question.getD "") ≠ "" &&
    (q.qtype != QuestionType.multiple_choice ||
      (q.options.length ≥ 2 && (q.options.filter (·.isCorrect)).length = 1))

/-- `generateQuestions` parse/annotate step (ai.service.js 97–102):
`questions.map(q => ({...q, aiGenerated: true, aiModel: 'gemini-1.5-flash',
confidence: Math.random() * 0.3 + 0.7}))`.  No validation or filtering of
malformed entries happens anywhere in the function. -/
def generateQuestions (conf : Nat → ℚ) (parsed : List RawQuestion) :
    List AnnotatedQuestion :=
  (parsed.enum).map fun qi =>
    { question := qi.2.question
      qtype := qi.2.qtype
      difficulty := qi.2.difficulty
      options := qi.2.options
      correctAnswer := qi.2.correctAnswer
      explanation := qi.2.explanation
      timestamp := qi.2.timestamp
      category := qi.2.category
      aiGenerated := true
      aiModel := "gemini-1.5-flash"
      confidence := conf qi.1 }

/-! ## Video model and mongoose update semantics

`Backend/models/Video.js`.  The schema paths relevant to the pipeline are
`status`, `processingStage` and `transcript` (with nested paths `text`,
`timestamped`, `language`).  The schema has **no** `summary`, `questions`
or `error` path.  Under mongoose defaults a `findByIdAndUpdate` is strict:
update keys that are not schema paths are silently dropped; and
`runValidators` is false, so the `processingStage` enum
(`['transcription','summarization','question_generation','completed']`,
which does not even contain `'failed'`) is not checked on updates.  A raw
MongoDB document could in principle hold `summary`/`questions`/`error`
fields, so the persisted `Video` carries them as `Option`s; the mongoose
layer just never writes them. -/

inductive VStatus where
  | uploading
  | processing
  | completed
  | failed
deriving DecidableEq

inductive Stage where
  | transcription
  | summarization
  | question_generation
  | completed
  | failed
deriving DecidableEq

/-- The values of the `processingStage` enum in `videoSchema` (note the
absence of `failed`). -/
def videoSchemaStageEnum : List Stage :=
  [Stage.transcription, Stage.summarization, Stage.question_generation,
   Stage.completed]

/-- The transcript sub-document as persisted: exactly the schema paths
`text`, `timestamped`, `language`. -/
structure PersistedTranscript where
  text : String
  timestamped : List TimedWord
  language : String
deriving DecidableEq

/-- Mongoose casting of the worker's transcript object to the schema:
nested keys that are not schema paths (`confidence`, `speakers`,
`chapters`, `entities`, `sentiment`, `highlights`) are dropped. -/
def castTranscript (t : ProcessedTranscript) : PersistedTranscript :=
  { text := t.text, timestamped := t.timestamped, language := t.language }

/-- The summary object the worker tries to persist
(`{text, generatedAt, model}`; `generatedAt: new Date()` is wall clock and
not modelled — the object is dropped by the schema in any case). -/
structure SummaryDoc where
  text : String
  model : String
deriving DecidableEq

/-- A persisted Video document (the pipeline-relevant fields). -/
structure Video where
  status : VStatus
  processingStage : Stage
  transcript : PersistedTranscript
  summary : Option SummaryDoc
  questions : Option (List AnnotatedQuestion)
  error : Option String
deriving DecidableEq

/-- A fresh Video as created through the schema defaults:
`status: 'uploading'`, `processingStage: 'transcription'`, transcript
defaults, and no `summary`/`questions`/`error` (no such schema paths). -/
def freshVideo : Video :=
  { status := VStatus.uploading
    processingStage := Stage.transcription
    transcript := { text := "", timestamped := [], language := "en" }
    summary := none
    questions := none
    error := none }

/-- The update object the worker passes to `Video.findByIdAndUpdate`:
each key optional. -/
structure UpdateDoc where
  status : Option VStatus
  processingStage : Option Stage
  transcript : Option ProcessedTranscript
  summary : Option SummaryDoc
  questions : Option (List AnnotatedQuestion)
  error : Option String
deriving DecidableEq

/-- `Video.findByIdAndUpdate(videoId, u)` under mongoose defaults:
`status`, `processingStage` and `transcript` are schema paths and are
`$set`; the `summary`, `questions` and `error` keys are not schema paths
and are dropped by strict mode, leaving the stored document's values
unchanged.  `runValidators` is false, so `processingStage := failed`
goes through even though it is outside the enum. -/
def applyUpdate (v : Video) (u : UpdateDoc) : Video :=
  { status := u.status.getD v.status
    processingStage := u.processingStage.getD v.processingStage
    transcript := (u.transcript.map castTranscript).getD v.transcript
    summary := v.summary
    questions := v.questions
    error := v.error }

/-! ## The worker: `videoQueue.process` and Bull redelivery

`jobs/videoProcessor.js` lines 12–66.  The remote services and the file
system are an oracle `Env`; the worker reads **nothing** from the
persisted Video — it only issues `findByIdAndUpdate` writes — so its
trace is a function of the environment alone. -/

/-- A remote-provider call made by the worker. -/
inductive RemoteCall where
  | transcriptionCall
  | summaryCall
  | questionsCall
deriving DecidableEq

/-- Oracle for one job's environment: whether `fs.existsSync(filePath)`
holds, and the outcome of each remote stage call (`Except` = the JS
promise rejecting with an error whose message is the string). -/
structure Env where
  fileExists : Bool
  transcribe : Except String ProcessedTranscript
  summarize : String → String → Except String String
  genQuestions : String → Except String (List AnnotatedQuestion)

/-- The trace of one delivery of the job: the `findByIdAndUpdate` writes
in order, the remote calls in order, and whether the processor resolved
(`thrown = none`) or rethrew an error. -/
structure JobTrace where
  updates : List UpdateDoc
  calls : List RemoteCall
  thrown : Option String
deriving DecidableEq

/-- The catch-block write (lines 59–63): sets only `status`,
`processingStage` and `error`. -/
def failUpdate (msg : String) : UpdateDoc :=
  { status := some VStatus.failed
    processingStage := some Stage.failed
    transcript := none
    summary := none
    questions := none
    error := some msg }

/-- Stage-1 success write (lines 23–37). -/
def stage1Update (t : ProcessedTranscript) : UpdateDoc :=
  { status := some VStatus.processing
    processingStage := some Stage.summarization
    transcript := some t
    summary := none
    questions := none
    error := none }

/-- Stage-2 success write (lines 41–45). -/
def stage2Update (s : String) : UpdateDoc :=
  { status := some VStatus.processing
    processingStage := some Stage.question_generation
    transcript := none
    summary := some { text := s, model := "gemini-1.5-flash" }
    questions := none
    error := none }

/-- Stage-3 success write (lines 49–53). -/
def stage3Update (qs : List AnnotatedQuestion) : UpdateDoc :=
  { status := some VStatus.completed
    processingStage := some Stage.completed
    transcript := none
    summary := none
    questions := some qs
    error := none }

/-- One delivery of `videoQueue.process` for job `(videoId, filePath)`:
check `fs.existsSync(filePath)` (throw if missing); transcribe; persist
stage 1; summarize `transcription.text` with `transcription.language`;
persist stage 2; generate questions from `transcription.text`; persist
stage 3.  Any thrown error is caught, a fail write is issued and the
error rethrown (so Bull counts the attempt as failed). -/
def processJob (filePath : String) (env : Env) : JobTrace :=
  if ¬ env.fileExists then
    let msg := "File not found for transcription: " ++ filePath
    { updates := [failUpdate msg], calls := [], thrown := some msg }
  else
    match env.transcribe with
    | .error e =>
        { updates := [failUpdate e]
          calls := [RemoteCall.transcriptionCall], thrown := some e }
    | .ok t =>
        match env.summarize t.text t.language with
        | .error e =>
            { updates := [stage1Update t, failUpdate e]
              calls := [RemoteCall.transcriptionCall, RemoteCall.summaryCall]
              thrown := some e }
        | .ok s =>
            match env.genQuestions t.text with
            | .error e =>
                { updates := [stage1Update t, stage2Update s, failUpdate e]
                  calls := [RemoteCall.transcriptionCall, RemoteCall.summaryCall,
                            RemoteCall.questionsCall]
                  thrown := some e }
            | .ok qs =>
                { updates := [stage1Update t, stage2Update s, stage3Update qs]
                  calls := [RemoteCall.transcriptionCall, RemoteCall.summaryCall,
                            RemoteCall.questionsCall]
                  thrown := none }

/-- Bull attempt cap configured by `addVideoJob`
(`{ attempts: 3, backoff: { type: 'exponential', delay: 1000 } }`). -/
def queueAttempts : Nat := 3

/-- Bull redelivery: a delivery whose processor throws is redelivered
until the job has been attempted `attempts` times in total; a resolved
delivery ends the job.  Returns the per-delivery traces in order. -/
def runAttempts (filePath : String) (env : Env) : Nat → List JobTrace
  | 0 => []
  | n + 1 =>
      let tr := processJob filePath env
      match tr.thrown with
      | none => [tr]
      | some _ => tr :: runAttempts filePath env n

/-- The whole job as enqueued by `addVideoJob`: up to 3 attempts. -/
def runJob (filePath : String) (env : Env) : List JobTrace :=
  runAttempts filePath env queueAttempts

/-- All persisted writes of the whole job, in order. -/
def jobUpdates (filePath : String) (env : Env) : List UpdateDoc :=
  (runJob filePath env).flatMap JobTrace.updates

/-- All remote calls of the whole job, in order. -/
def jobCalls (filePath : String) (env : Env) : List RemoteCall :=
  (runJob filePath env).flatMap JobTrace.calls

/-- The persisted Video states observed while the job runs, starting from
`v₀` and including it (`List.scanl` of `applyUpdate`). -/
def jobStates (v₀ : Video) (filePath : String) (env : Env) : List Video :=
  (jobUpdates filePath env).scanl applyUpdate v₀

/-- The terminal persisted Video state after the job. -/
def finalVideo (v₀ : Video) (filePath : String) (env : Env) : Video :=
  (jobUpdates filePath env).foldl applyUpdate v₀

/-- The `processingStage` values observed on the persisted document. -/
def observedStages (v₀ : Video) (filePath : String) (env : Env) : List Stage :=
  (jobStates v₀ filePath env).map Video.processingStage

/-- Position of a stage in the fixed forward order of the spec
(`failed` is terminal, after everything). -/
def stageRank : Stage → Nat
  | Stage.transcription => 0
  | Stage.summarization => 1
  | Stage.question_generation => 2
  | Stage.completed => 3
  | Stage.failed => 4

/-- One observed transition respects the claimed order: it moves forward,
or jumps directly to `failed`. -/
def stageStepOk (a b : Stage) : Bool :=
  stageRank a ≤ stageRank b || b = Stage.failed

/-- A sequence of observed stages never regresses (pairwise on adjacent
elements). -/
def stageMonotone : List Stage → Bool
  | [] => true
  | [_] => true
  | a :: b :: rest => stageStepOk a b && stageMonotone (b :: rest)

/-! ## Sample data used by concrete witnesses and counterexamples -/

/-- A provider result carrying nothing (every optional field absent). -/
def rawEmpty : RawResult :=
  { text := none, language_code := none, confidence := none, words := none
    utterances := none, chapters := none, entities := none
    sentiment_analysis_results := none, auto_highlights_result := none }

/-- A normalized transcript as produced by a successful transcription of
the end-to-end scenario. -/
def tSample : ProcessedTranscript :=
  { text := "hello world", language := "en", confidence := 1
    timestamped := [], speakers := [], chapters := [], entities := []
    sentiment := none, highlights := [] }

/-- A well-formed short-answer question entry. -/
def goodQ (s : String) : RawQuestion :=
  { question := some s, qtype := QuestionType.short_answer
    difficulty := "medium", options := [], correctAnswer := some "a"
    explanation := some "because", timestamp := none
    category := some "comprehension" }

/-- A malformed question entry: the `question` property is missing. -/
def badQ : RawQuestion :=
  { question := none, qtype := QuestionType.short_answer
    difficulty := "medium", options := [], correctAnswer := none
    explanation := none, timestamp := none, category := none }

/-- A deterministic stand-in for `Math.random() * 0.3 + 0.7`. -/
def constConf : Nat → ℚ := fun _ => 1

/-- Provider response with 5 well-formed and 2 malformed entries. -/
def sampleParsed : List RawQuestion :=
  [goodQ "Q1", goodQ "Q2", goodQ "Q3", goodQ "Q4", goodQ "Q5", badQ, badQ]

/-- A concrete annotated question list for the happy path. -/
def sampleQuestions : List AnnotatedQuestion :=
  generateQuestions constConf [goodQ "Q1", goodQ "Q2", goodQ "Q3"]

/-- Environment of an uninterrupted happy-path run: file present, all
three provider calls succeed. -/
def envOK : Env :=
  { fileExists := true
    transcribe := Except.ok tSample
    summarize := fun _ _ => Except.ok "a summary"
    genQuestions := fun _ => Except.ok sampleQuestions }

/-- Environment whose transcription call always fails transiently. -/
def envTransFail : Env :=
  { envOK with transcribe := Except.error "Network Error" }

/-- Environment whose summarization call always fails transiently. -/
def envSumFail : Env :=
  { envOK with summarize := fun _ _ => Except.error "rate limited" }

/-- Environment of a job whose file path does not exist on disk. -/
def envNoFile : Env :=
  { envOK with fileExists := false }

/-- A persisted Video sitting at `processingStage = summarization` with
its transcript already persisted (the crash-between-stages scenario). -/
def vResume : Video :=
  { status := VStatus.processing
    processingStage := Stage.summarization
    transcript := castTranscript tSample
    summary := none
    questions := none
    error := none }

/-! ## Shared lemmas -/

/-- `findByIdAndUpdate` never changes the stored `summary`: the schema
has no such path, so strict mode drops the key. -/
lemma applyUpdate_summary (v : Video) (u : UpdateDoc) :
    (applyUpdate v u).summary = v.summary := rfl

lemma applyUpdate_questions (v : Video) (u : UpdateDoc) :
    (applyUpdate v u).questions = v.questions := rfl

lemma applyUpdate_error (v : Video) (u : UpdateDoc) :
    (applyUpdate v u).error = v.error := rfl

lemma foldl_applyUpdate_summary :
    ∀ (us : List UpdateDoc) (v : Video),
      (us.foldl applyUpdate v).summary = v.summary := by
  intro us
  induction us with
  | nil => intro v; rfl
  | cons u us ih => intro v; simpa [List.foldl] using ih (applyUpdate v u)

lemma foldl_applyUpdate_questions :
    ∀ (us : List UpdateDoc) (v : Video),
      (us.foldl applyUpdate v).questions = v.questions := by
  intro us
  induction us with
  | nil => intro v; rfl
  | cons u us ih => intro v; simpa [List.foldl] using ih (applyUpdate v u)

lemma foldl_applyUpdate_error :
    ∀ (us : List UpdateDoc) (v : Video),
      (us.foldl applyUpdate v).error = v.error := by
  intro us
  induction us with
  | nil => intro v; rfl
  | cons u us ih => intro v; simpa [List.foldl] using ih (applyUpdate v u)

lemma scanl_applyUpdate_error :
    ∀ (us : List UpdateDoc) (v : Video),
      ∀ s ∈ us.scanl applyUpdate v, s.error = v.error := by
  intro us
  induction us with
  | nil =>
      intro v s hs
      simp only [List.scanl, List.mem_singleton] at hs
      simp [hs]
  | cons u us ih =>
      intro v s hs
      simp only [List.scanl, List.mem_cons] at hs
      rcases hs with h | h
      · simp [h]
      · simpa using ih (applyUpdate v u) s h

lemma runAttempts_length_le (fp : String) (env : Env) :
    ∀ n, (runAttempts fp env n).length ≤ n := by
  intro n
  induction n with
  | zero => simp [runAttempts]
  | succ n ih =>
      simp only [runAttempts]
      cases (processJob fp env).thrown with
      | none => simp
      | some e => simpa using ih

lemma pollCountFrom_le (get : Nat → PollStatus) :
    ∀ r i, pollCountFrom get r i ≤ r := by
  intro r
  induction r with
  | zero => intro i; simp [pollCountFrom]
  | succ r ih =>
      intro i
      simp only [pollCountFrom]
      cases get i with
      | completed res => show (1 : Nat) ≤ r + 1; omega
      | errored m => show (1 : Nat) ≤ r + 1; omega
      | queued =>
          show 1 + pollCountFrom get r (i + 1) ≤ r + 1
          have := ih (i + 1); omega
      | processing =>
          show 1 + pollCountFrom get r (i + 1) ≤ r + 1
          have := ih (i + 1); omega

lemma pollFrom_completed (get : Nat → PollStatus) :
    ∀ k r i res, k < r →
      (∀ j, j < k → (get (i + j)).isPending = true) →
      get (i + k) = PollStatus.completed res →
      pollFrom get r i = .ok (processTranscriptionResult res) := by
  intro k
  induction k with
  | zero =>
      intro r i res hr hpend hk
      obtain ⟨r', rfl⟩ : ∃ r', r = r' + 1 := ⟨r - 1, by omega⟩
      rw [Nat.add_zero] at hk
      simp [pollFrom, hk]
  | succ k ih =>
      intro r i res hr hpend hk
      obtain ⟨r', rfl⟩ : ∃ r', r = r' + 1 := ⟨r - 1, by omega⟩
      have hp0 : (get i).isPending = true := by
        simpa using hpend 0 (by omega)
      have hpend' : ∀ j, j < k → (get (i + 1 + j)).isPending = true := by
        intro j hj
        have hidx : i + 1 + j = i + (j + 1) := by omega
        rw [hidx]
        exact hpend (j + 1) (by omega)
      have hk' : get (i + 1 + k) = PollStatus.completed res := by
        have hidx : i + 1 + k = i + (k + 1) := by omega
        rw [hidx]; exact hk
      simp only [pollFrom]
      cases hg : get i with
      | completed res' => rw [hg] at hp0; simp [PollStatus.isPending] at hp0
      | errored m => rw [hg] at hp0; simp [PollStatus.isPending] at hp0
      | queued => exact ih r' (i + 1) res (by omega) hpend' hk'
      | processing => exact ih r' (i + 1) res (by omega) hpend' hk'

lemma pollFrom_errored (get : Nat → PollStatus) :
    ∀ k r i m, k < r →
      (∀ j, j < k → (get (i + j)).isPending = true) →
      get (i + k) = PollStatus.errored m →
      pollFrom get r i = .error ("Transcription failed: " ++ m) := by
  intro k
  induction k with
  | zero =>
      intro r i m hr hpend hk
      obtain ⟨r', rfl⟩ : ∃ r', r = r' + 1 := ⟨r - 1, by omega⟩
      rw [Nat.add_zero] at hk
      simp [pollFrom, hk]
  | succ k ih =>
      intro r i m hr hpend hk
      obtain ⟨r', rfl⟩ : ∃ r', r = r' + 1 := ⟨r - 1, by omega⟩
      have hp0 : (get i).isPending = true := by
        simpa using hpend 0 (by omega)
      have hpend' : ∀ j, j < k → (get (i + 1 + j)).isPending = true := by
        intro j hj
        have hidx : i + 1 + j = i + (j + 1) := by omega
        rw [hidx]
        exact hpend (j + 1) (by omega)
      have hk' : get (i + 1 + k) = PollStatus.errored m := by
        have hidx : i + 1 + k = i + (k + 1) := by omega
        rw [hidx]; exact hk
      simp only [pollFrom]
      cases hg : get i with
      | completed res' => rw [hg] at hp0; simp [PollStatus.isPending] at hp0
      | errored m' => rw [hg] at hp0; simp [PollStatus.isPending] at hp0
      | queued => exact ih r' (i + 1) m (by omega) hpend' hk'
      | processing => exact ih r' (i + 1) m (by omega) hpend' hk'

lemma pollFrom_timeout (get : Nat → PollStatus) :
    ∀ r i, (∀ j, j < r → (get (i + j)).isPending = true) →
      pollFrom get r i = .error "Transcription timeout" := by
  intro r
  induction r with
  | zero => intro i _; rfl
  | succ r ih =>
      intro i h
      have hp0 : (get i).isPending = true := by
        simpa using h 0 (by omega)
      have h' : ∀ j, j < r → (get (i + 1 + j)).isPending = true := by
        intro j hj
        have hidx : i + 1 + j = i + (j + 1) := by omega
        rw [hidx]
        exact h (j + 1) (by omega)
      simp only [pollFrom]
      cases hg : get i with
      | completed res' => rw [hg] at hp0; simp [PollStatus.isPending] at hp0
      | errored m' => rw [hg] at hp0; simp [PollStatus.isPending] at hp0
      | queued => exact ih (i + 1) h'
      | processing => exact ih (i + 1) h'

/-! ## Claims -/

/-- **C9.** `pollTranscription` terminates after at most 60 polls (the
fixed inter-poll sleep is 5000 ms): it returns the normalized result as
soon as the provider reports `completed`, raises an error carrying the
provider's message as soon as it reports `error`, and raises the
`Transcription timeout` error once the 60-attempt bound is exceeded. -/
theorem pollTranscription_bounded_and_correct (get : Nat → PollStatus) :
    pollCount get ≤ maxPollAttempts ∧
    (∀ k res, k < maxPollAttempts →
      (∀ j, j < k → (get j).isPending = true) →
      get k = PollStatus.completed res →
      pollTranscription get = .ok (processTranscriptionResult res)) ∧
    (∀ k m, k < maxPollAttempts →
      (∀ j, j < k → (get j).isPending = true) →
      get k = PollStatus.errored m →
      pollTranscription get = .error ("Transcription failed: " ++ m)) ∧
    ((∀ j, j < maxPollAttempts → (get j).isPending = true) →
      pollTranscription get = .error "Transcription timeout") ∧
    pollIntervalMs = 5000 := by
  refine ⟨pollCountFrom_le get maxPollAttempts 0, ?_, ?_, ?_, rfl⟩
  · intro k res hk hpend hc
    refine pollFrom_completed get k maxPollAttempts 0 res hk ?_ ?_
    · intro j hj; simpa using hpend j hj
    · simpa using hc
  · intro k m hk hpend hc
    refine pollFrom_errored get k maxPollAttempts 0 m hk ?_ ?_
    · intro j hj; simpa using hpend j hj
    · simpa using hc
  · intro h
    refine pollFrom_timeout get maxPollAttempts 0 ?_
    intro j hj; simpa using h j hj

/-- A provider that reports `completed` immediately. -/
def getCompletedNow : Nat → PollStatus := fun _ => PollStatus.completed rawEmpty

/-- Witness for C9: at the provider that completes on the first poll,
the loop polls at most 60 times and returns the processed empty result. -/
theorem pollTranscription_bounded_and_correct_witness :
    pollCount getCompletedNow ≤ maxPollAttempts ∧
    pollTranscription getCompletedNow =
      .ok (processTranscriptionResult rawEmpty) :=
  ⟨(pollTranscription_bounded_and_correct getCompletedNow).1,
   (pollTranscription_bounded_and_correct getCompletedNow).2.1 0 rawEmpty
     (by decide) (fun j hj => absurd hj (Nat.not_lt_zero j)) rfl⟩

/-- **C10.** `processTranscriptionResult` is total over any completed
provider result: every millisecond timestamp present is divided by 1000,
and every absent field maps to a fixed default (`''`, `'en'`, `0`, empty
lists, `null` sentiment) rather than an error — in particular a completed
response with no text yields a transcript whose text is `""`. -/
theorem processTranscriptionResult_total (r : RawResult) :
    (processTranscriptionResult r).text = r.text.getD "" ∧
    (processTranscriptionResult r).language = r.language_code.getD "en" ∧
    (processTranscriptionResult r).confidence = r.confidence.getD 0 ∧
    (processTranscriptionResult r).timestamped =
      (r.words.getD []).map (fun w =>
        { start := w.start / 1000, stop := w.stop / 1000
          text := w.text, confidence := w.confidence }) ∧
    (processTranscriptionResult r).speakers =
      (r.utterances.getD []).map (fun u =>
        { speaker := u.speaker, start := u.start / 1000, stop := u.stop / 1000
          text := u.text, confidence := u.confidence }) ∧
    (processTranscriptionResult r).chapters =
      (r.chapters.getD []).map (fun c =>
        { start := c.start / 1000, stop := c.stop / 1000
          headline := c.headline, gist := c.gist, summary := c.summary }) ∧
    (processTranscriptionResult r).entities =
      (r.entities.getD []).map (fun e =>
        { start := e.start / 1000, stop := e.stop / 1000
          text := e.text, entityType := e.entity_type }) ∧
    (processTranscriptionResult r).sentiment =
      r.sentiment_analysis_results.map (fun ss => ss.map (fun s =>
        { start := s.start / 1000, stop := s.stop / 1000, text := s.text
          sentiment := s.sentiment, confidence := s.confidence })) ∧
    (processTranscriptionResult r).highlights =
      (r.auto_highlights_result.map (fun h => h.results.map (fun hl =>
        { text := hl.text, count := hl.count, rank := hl.rank
          timestamps := hl.timestamps.map (fun ts =>
            { start := ts.start / 1000, stop := ts.stop / 1000 }) }))).getD [] := by
  rcases r with ⟨t, l, c, w, u, ch, en, se, hi⟩
  cases w <;> cases u <;> cases ch <;> cases en <;> cases se <;> cases hi <;>
    simp [processTranscriptionResult]

lemma runJob_thrown (fp e : String) (env : Env)
    (h : (processJob fp env).thrown = some e) :
    runJob fp env = [processJob fp env, processJob fp env, processJob fp env] := by
  simp [runJob, queueAttempts, runAttempts, h]

lemma runJob_resolved (fp : String) (env : Env)
    (h : (processJob fp env).thrown = none) :
    runJob fp env = [processJob fp env] := by
  simp [runJob, queueAttempts, runAttempts, h]

/-- **C1 counterexample.** The worker never reads the persisted Video (it
only writes): `vResume` is a Video persisted at
`processingStage = summarization` with its transcript already stored, yet
re-running the job still makes a transcription-provider call (one per
delivery), refuting "does not invoke the transcription provider again". -/
theorem resume_recalls_transcription :
    vResume.processingStage = Stage.summarization ∧
    vResume.transcript = castTranscript tSample ∧
    (jobCalls "uploads/sample.mp4" envOK).count RemoteCall.transcriptionCall
      = 1 := by
  decide

/-- **C1 (amended).** The worker has no resume logic: whenever the file
exists it re-invokes the transcription provider regardless of the
persisted `processingStage`; since its trace depends only on the
environment, a re-run reaches the same terminal persisted state as an
uninterrupted run whenever the two starting documents agree on the
fields the worker cannot overwrite (`summary`, `questions`, `error` —
never writable, as `videoSchema` has no such paths). -/
theorem rerun_calls_transcription_same_terminal (fp : String) (env : Env)
    (t : ProcessedTranscript) (s : String) (qs : List AnnotatedQuestion)
    (v w : Video)
    (hfile : env.fileExists = true)
    (ht : env.transcribe = Except.ok t)
    (hs : env.summarize t.text t.language = Except.ok s)
    (hq : env.genQuestions t.text = Except.ok qs)
    (hsum : v.summary = w.summary) (hqs : v.questions = w.questions)
    (herr : v.error = w.error) :
    RemoteCall.transcriptionCall ∈ jobCalls fp env ∧
    finalVideo v fp env = finalVideo w fp env := by
  have hproc : processJob fp env =
      { updates := [stage1Update t, stage2Update s, stage3Update qs]
        calls := [RemoteCall.transcriptionCall, RemoteCall.summaryCall,
                  RemoteCall.questionsCall]
        thrown := none } := by
    simp [processJob, hfile, ht, hs, hq]
  have hrun := runJob_resolved fp env (by rw [hproc])
  constructor
  · simp [jobCalls, hrun, hproc]
  · simp [finalVideo, jobUpdates, hrun, hproc, applyUpdate,
      stage1Update, stage2Update, stage3Update, hsum, hqs, herr]

/-- Witness for C1 (amended) at the happy-path environment, comparing a
re-run from `vResume` with an uninterrupted run from `freshVideo`. -/
theorem rerun_calls_transcription_same_terminal_witness :
    RemoteCall.transcriptionCall ∈ jobCalls "uploads/sample.mp4" envOK ∧
    finalVideo vResume "uploads/sample.mp4" envOK =
      finalVideo freshVideo "uploads/sample.mp4" envOK :=
  rerun_calls_transcription_same_terminal "uploads/sample.mp4" envOK
    tSample "a summary" sampleQuestions vResume freshVideo
    rfl rfl rfl rfl rfl rfl rfl

/-- **C2 counterexample.** With a transcription call that always fails
transiently, the whole job makes 3 transcription attempts (Bull
`attempts: 3`, no in-process retry), not 9, before ending with the Video
failed. -/
theorem retry_bound_not_nine :
    (jobCalls "v.mp4" envTransFail).count RemoteCall.transcriptionCall = 3 ∧
    ¬ (jobCalls "v.mp4" envTransFail).count RemoteCall.transcriptionCall = 9 ∧
    (finalVideo freshVideo "v.mp4" envTransFail).status = VStatus.failed := by
  decide

/-- **C2 (amended).** A job whose transcription call always fails with a
transient error attempts the stage exactly 3 times in total — the worker
has no in-process retry, so the only retry layer is Bull's `attempts: 3`
— and the Video's status is already set to `failed` by the first
attempt's catch write and is `failed` when the job ends. -/
theorem retry_bound_three (fp e : String) (env : Env) (v : Video)
    (hfile : env.fileExists = true)
    (ht : env.transcribe = Except.error e) :
    (jobCalls fp env).count RemoteCall.transcriptionCall = 3 ∧
    (processJob fp env).updates = [failUpdate e] ∧
    (finalVideo v fp env).status = VStatus.failed ∧
    (finalVideo v fp env).processingStage = Stage.failed := by
  have hproc : processJob fp env =
      { updates := [failUpdate e]
        calls := [RemoteCall.transcriptionCall], thrown := some e } := by
    simp [processJob, hfile, ht]
  have hrun := runJob_thrown fp e env (by rw [hproc])
  refine ⟨?_, by rw [hproc], ?_, ?_⟩ <;>
    simp [jobCalls, finalVideo, jobUpdates, hrun, hproc, applyUpdate,
      failUpdate]

/-- Witness for C2 (amended) at the always-failing environment. -/
theorem retry_bound_three_witness :
    (jobCalls "v.mp4" envTransFail).count RemoteCall.transcriptionCall = 3 ∧
    (processJob "v.mp4" envTransFail).updates = [failUpdate "Network Error"] ∧
    (finalVideo freshVideo "v.mp4" envTransFail).status = VStatus.failed ∧
    (finalVideo freshVideo "v.mp4" envTransFail).processingStage
      = Stage.failed :=
  retry_bound_three "v.mp4" "Network Error" envTransFail freshVideo rfl rfl

/-- **C3 counterexample.** With a summarization call that always fails,
Bull's automatic redelivery makes the observed `processingStage` sequence
regress: after `failed` is persisted by the first delivery, the second
delivery re-persists `summarization` — the observed sequence is not
monotone. -/
theorem stage_sequence_regresses :
    observedStages freshVideo "v.mp4" envSumFail =
      [Stage.transcription, Stage.summarization, Stage.failed,
       Stage.summarization, Stage.failed,
       Stage.summarization, Stage.failed] ∧
    stageMonotone (observedStages freshVideo "v.mp4" envSumFail) = false := by
  decide

/-- **C3 (amended).** Within a single job delivery starting from the
schema-default stage `transcription`, the observed `processingStage`
values do follow the fixed forward order or jump directly to `failed`;
the regression in C3's counterexample only arises across Bull's
automatic redeliveries of a failed job. -/
theorem stage_monotone_single_delivery (fp : String) (env : Env) (v : Video)
    (hv : v.processingStage = Stage.transcription) :
    stageMonotone ((((processJob fp env).updates).scanl applyUpdate v).map
      Video.processingStage) = true := by
  rcases hfile : env.fileExists with _ | _
  · simp [processJob, hfile, stageMonotone, stageStepOk, stageRank,
      applyUpdate, failUpdate, hv]
  · rcases ht : env.transcribe with e | t
    · simp [processJob, hfile, ht, stageMonotone, stageStepOk, stageRank,
        applyUpdate, failUpdate, hv]
    · rcases hs : env.summarize t.text t.language with e | s
      · simp [processJob, hfile, ht, hs, stageMonotone, stageStepOk,
          stageRank, applyUpdate, failUpdate, stage1Update, hv]
      · rcases hq : env.genQuestions t.text with e | qs
        · simp [processJob, hfile, ht, hs, hq, stageMonotone, stageStepOk,
            stageRank, applyUpdate, failUpdate, stage1Update, stage2Update,
            hv]
        · simp [processJob, hfile, ht, hs, hq, stageMonotone, stageStepOk,
            stageRank, applyUpdate, stage1Update, stage2Update, stage3Update,
            hv]

/-- Witness for C3 (amended): a single happy-path delivery from a fresh
Video observes only forward stages. -/
theorem stage_monotone_single_delivery_witness :
    stageMonotone ((((processJob "v.mp4" envOK).updates).scanl applyUpdate
      freshVideo).map Video.processingStage) = true :=
  stage_monotone_single_delivery "v.mp4" envOK freshVideo rfl

/-- **C4 counterexample.** A job whose file path does not exist is
processed 3 times, not once: the thrown precondition error is rethrown
after the catch write, so Bull redelivers it like any other failure
(each attempt makes zero remote calls). -/
theorem missing_file_three_attempts :
    (runJob "missing.mp4" envNoFile).length = 3 ∧
    ¬ (runJob "missing.mp4" envNoFile).length = 1 ∧
    jobCalls "missing.mp4" envNoFile = [] ∧
    (finalVideo freshVideo "missing.mp4" envNoFile).status
      = VStatus.failed := by
  decide

/-- **C4 (amended).** A job whose file path does not exist reaches the
`failed` status already on its first attempt and no transcription or
text-generation call is ever made, but the job is delivered 3 times in
total (the precondition failure does not bypass Bull's retry cap). -/
theorem missing_file_no_remote_calls (fp : String) (env : Env) (v : Video)
    (hfile : env.fileExists = false) :
    (runJob fp env).length = 3 ∧
    jobCalls fp env = [] ∧
    ((processJob fp env).updates).length = 1 ∧
    (finalVideo v fp env).status = VStatus.failed ∧
    (finalVideo v fp env).processingStage = Stage.failed := by
  have hproc : processJob fp env =
      { updates := [failUpdate ("File not found for transcription: " ++ fp)]
        calls := [], thrown :=
          some ("File not found for transcription: " ++ fp) } := by
    simp [processJob, hfile]
  have hrun := runJob_thrown fp
    ("File not found for transcription: " ++ fp) env (by rw [hproc])
  refine ⟨?_, ?_, ?_, ?_, ?_⟩ <;>
    simp [jobCalls, finalVideo, jobUpdates, hrun, hproc, applyUpdate,
      failUpdate]

/-- Witness for C4 (amended) at the missing-file environment. -/
theorem missing_file_no_remote_calls_witness :
    (runJob "missing.mp4" envNoFile).length = 3 ∧
    jobCalls "missing.mp4" envNoFile = [] ∧
    ((processJob "missing.mp4" envNoFile).updates).length = 1 ∧
    (finalVideo freshVideo "missing.mp4" envNoFile).status = VStatus.failed ∧
    (finalVideo freshVideo "missing.mp4" envNoFile).processingStage
      = Stage.failed :=
  missing_file_no_remote_calls "missing.mp4" envNoFile freshVideo rfl

lemma enum_map_snd_comp {α β : Type _} (f : α → β) (l : List α) :
    l.enum.map (fun p => f p.2) = l.map f := by
  calc l.enum.map (fun p => f p.2)
      = (l.enum.map Prod.snd).map f := by rw [List.map_map]; rfl
    _ = l.map f := by rw [List.enum_map_snd]

/-- **C5 counterexample.** On a provider response holding 5 well-formed
and 2 malformed entries (missing question text), `generateQuestions`
returns all 7 entries — malformed entries are not dropped, and the
resulting array does not have exactly 5 entries. -/
theorem malformed_questions_not_dropped :
    (sampleParsed.filter wellFormedQuestion).length = 5 ∧
    (sampleParsed.filter (fun q => ! wellFormedQuestion q)).length = 2 ∧
    (generateQuestions constConf sampleParsed).length = 7 ∧
    ¬ (generateQuestions constConf sampleParsed).length = 5 := by
  decide

/-- **C5 (amended).** `generateQuestions` performs no shape validation:
it returns every parsed entry, annotated, preserving count and question
texts; moreover the worker's `questions` write is dropped by the schema
(no `questions` path in `videoSchema`), so the persisted document's
`questions` field is never populated at all. -/
theorem questions_all_returned_never_persisted (conf : Nat → ℚ)
    (parsed : List RawQuestion) (fp : String) (env : Env) (v : Video)
    (hv : v.questions = none) :
    (generateQuestions conf parsed).length = parsed.length ∧
    (generateQuestions conf parsed).map AnnotatedQuestion.question =
      parsed.map RawQuestion.question ∧
    (finalVideo v fp env).questions = none := by
  refine ⟨?_, ?_, ?_⟩
  · simp [generateQuestions]
  · have h := enum_map_snd_comp RawQuestion.question parsed
    simpa [generateQuestions, List.map_map, Function.comp] using h
  · rw [finalVideo, foldl_applyUpdate_questions, hv]

/-- Witness for C5 (amended) at the 5-good-2-malformed response. -/
theorem questions_all_returned_never_persisted_witness :
    (generateQuestions constConf sampleParsed).length =
      sampleParsed.length ∧
    (generateQuestions constConf sampleParsed).map
      AnnotatedQuestion.question = sampleParsed.map RawQuestion.question ∧
    (finalVideo freshVideo "v.mp4" envOK).questions = none :=
  questions_all_returned_never_persisted constConf sampleParsed "v.mp4"
    envOK freshVideo rfl

/-- **C6.** Evaluation at the failing input: after an uninterrupted
happy-path run, the persisted Video has `status = completed` and its
transcript text, but its `summary` and `questions` are not populated —
`videoSchema` has no such paths, so the worker's stage-2/3 writes of
those keys are silently dropped by the strict `findByIdAndUpdate`. -/
theorem completed_without_summary_or_questions :
    (finalVideo freshVideo "uploads/sample.mp4" envOK).status
      = VStatus.completed ∧
    (finalVideo freshVideo "uploads/sample.mp4" envOK).processingStage
      = Stage.completed ∧
    (finalVideo freshVideo "uploads/sample.mp4" envOK).transcript.text
      = "hello world" ∧
    (finalVideo freshVideo "uploads/sample.mp4" envOK).summary = none ∧
    (finalVideo freshVideo "uploads/sample.mp4" envOK).questions = none := by
  decide

/-- **C7 counterexample.** With a summarization call that always fails:
after the first delivery (2 updates) the persisted Video is `failed` with
its `error` field unset (the catch write's `error` key is not a
`videoSchema` path and is dropped), and — without any external trigger —
the job goes on: the third write re-executes stage 1, and 6 remote calls
are made in total across the automatic redeliveries. -/
theorem failed_without_error_then_more_stages :
    ((jobStates freshVideo "v.mp4" envSumFail).getD 2 freshVideo).status
      = VStatus.failed ∧
    ((jobStates freshVideo "v.mp4" envSumFail).getD 2 freshVideo).error
      = none ∧
    (jobUpdates "v.mp4" envSumFail).getD 2 (failUpdate "x")
      = stage1Update tSample ∧
    (jobCalls "v.mp4" envSumFail).length = 6 := by
  decide

/-- **C7 (amended).** The persisted `error` field is never populated at
all (no `error` path in `videoSchema`, so every write of it is dropped),
and a failed job is redelivered automatically by Bull up to its cap of 3
total attempts — stages re-execute without an external trigger until the
cap is reached, after which the job ends. -/
theorem failed_error_never_persisted (fp : String) (env : Env) (v : Video)
    (hv : v.error = none) :
    (∀ st ∈ jobStates v fp env, st.error = none) ∧
    (runJob fp env).length ≤ 3 := by
  constructor
  · intro st hst
    have h := scanl_applyUpdate_error (jobUpdates fp env) v st hst
    rw [h, hv]
  · simpa [runJob, queueAttempts] using runAttempts_length_le fp env 3

/-- Witness for C7 (amended) at the failing-summarization environment. -/
theorem failed_error_never_persisted_witness :
    (∀ st ∈ jobStates freshVideo "v.mp4" envSumFail, st.error = none) ∧
    (runJob "v.mp4" envSumFail).length ≤ 3 :=
  failed_error_never_persisted "v.mp4" envSumFail freshVideo rfl

/-- **C8.** A failure in stage 2 or stage 3 leaves the persisted
transcript unchanged: the catch write carries no `transcript`, `summary`
or `questions` keys (it sets only `status`, `processingStage`, `error`),
it is the delivery's last write, and from the moment stage 1 persisted
the transcript every observed state of the delivery keeps that same
transcript. -/
theorem late_failure_preserves_transcript (fp e : String) (env : Env)
    (v : Video) (t : ProcessedTranscript)
    (hfile : env.fileExists = true)
    (ht : env.transcribe = Except.ok t)
    (hlate : env.summarize t.text t.language = Except.error e ∨
      ∃ s, env.summarize t.text t.language = Except.ok s ∧
           env.genQuestions t.text = Except.error e) :
    (failUpdate e).transcript = none ∧
    (failUpdate e).summary = none ∧
    (failUpdate e).questions = none ∧
    ((processJob fp env).updates).getLast? = some (failUpdate e) ∧
    (∀ st ∈ ((((processJob fp env).updates).scanl applyUpdate v).drop 1),
      st.transcript = castTranscript t) := by
  rcases hlate with hs | ⟨s, hs, hq⟩
  · have hproc : processJob fp env =
        { updates := [stage1Update t, failUpdate e]
          calls := [RemoteCall.transcriptionCall, RemoteCall.summaryCall]
          thrown := some e } := by
      simp [processJob, hfile, ht, hs]
    refine ⟨rfl, rfl, rfl, by simp [hproc], ?_⟩
    intro st hst
    simp only [hproc, List.scanl, List.drop, List.mem_cons,
      List.not_mem_nil, or_false] at hst
    rcases hst with rfl | rfl <;>
      simp [applyUpdate, stage1Update, failUpdate]
  · have hproc : processJob fp env =
        { updates := [stage1Update t, stage2Update s, failUpdate e]
          calls := [RemoteCall.transcriptionCall, RemoteCall.summaryCall,
                    RemoteCall.questionsCall]
          thrown := some e } := by
      simp [processJob, hfile, ht, hs, hq]
    refine ⟨rfl, rfl, rfl, by simp [hproc], ?_⟩
    intro st hst
    simp only [hproc, List.scanl, List.drop, List.mem_cons,
      List.not_mem_nil, or_false] at hst
    rcases hst with rfl | rfl | rfl <;>
      simp [applyUpdate, stage1Update, stage2Update, failUpdate]

/-- Witness for C8 at the failing-summarization environment. -/
theorem late_failure_preserves_transcript_witness :
    (failUpdate "rate limited").transcript = none ∧
    (failUpdate "rate limited").summary = none ∧
    (failUpdate "rate limited").questions = none ∧
    ((processJob "v.mp4" envSumFail).updates).getLast?
      = some (failUpdate "rate limited") ∧
    (∀ st ∈ ((((processJob "v.mp4" envSumFail).updates).scanl applyUpdate
        freshVideo).drop 1), st.transcript = castTranscript tSample) :=
  late_failure_preserves_transcript "v.mp4" "rate limited" envSumFail
    freshVideo tSample rfl rfl (Or.inl rfl)

end VidQuizzer
